import Mathlib

/-!
Shallow embedding of the client-side real-time synchronization core of the
ticket-dashboard repository:

* the message handling of the WebSocket connection manager
  (src/hooks/useWebSocket.ts), and
* the reconciler that merges inbound change-event envelopes into the local
  ticket collection (the dashboard page component, src/unnamed/part_000,
  `onMessage` switch).

Runtime values arriving over the wire are untyped JavaScript objects: the
TypeScript casts (`message.data as Ticket`) perform no runtime check, so every
field of an inbound ticket object is modelled as `Option String` (a field may
be absent, and enum-typed fields may hold arbitrary strings).  The `data`
field of a parsed message may itself be absent (`undefined` in JS), modelled
by `JsVal.undef`; reading a property of `undefined` throws a TypeError,
modelled by `Except Unit`.

React-specific re-render/closure mechanics are abstracted: handler bodies are
modelled as reading and writing the current state directly, exactly as their
code is written.
-/

set_option maxHeartbeats 1000000

namespace TicketSync

/-- The closed status enumeration from src/types/ticket.ts:
`"open" | "in-progress" | "resolved" | "closed"`. -/
def isValidStatus (s : String) : Bool :=
  s = "open" || s = "in-progress" || s = "resolved" || s = "closed"

/-- The closed priority enumeration from src/types/ticket.ts:
`"low" | "medium" | "high" | "urgent"`. -/
def isValidPriority (s : String) : Bool :=
  s = "low" || s = "medium" || s = "high" || s = "urgent"

/-- A ticket object as it exists at runtime after `JSON.parse`: every field of
the TypeScript `Ticket` interface, but each possibly absent and carrying an
arbitrary string, because no runtime validation is performed anywhere in the
code. -/
structure JTicket where
  id : Option String
  subject : Option String
  description : Option String
  status : Option String
  priority : Option String
  createdAt : Option String
  updatedAt : Option String
  assignedTo : Option String
  deriving DecidableEq, Repr

/-- A JavaScript value in a `data` position or in the tickets array: either
`undefined` (the `data` field was absent from the frame) or a ticket-shaped
object. -/
inductive JsVal where
  | undef
  | obj (t : JTicket)
  deriving DecidableEq, Repr

/-- Reading `.id` on a JavaScript value: throws a TypeError on `undefined`,
returns the (possibly absent) field on an object.  Strict equality
`undefined === undefined` holds in JS, so absent ids compare equal, which the
`Option String` equality reproduces. -/
def JsVal.idOf : JsVal → Except Unit (Option String)
  | .undef => .error ()
  | .obj t => .ok t.id

/-- The identifier a value carries, viewed statically (no exception):
`undefined` and objects without an `id` field carry none. -/
def keyOf : JsVal → Option String
  | .undef => none
  | .obj t => t.id

/-- A parsed WebSocket message as the consumer receives it: the `type` tag is
an arbitrary string (the cast to `WebSocketMessage` checks nothing), and
`data` may be absent. -/
structure WSMessage where
  msgType : String
  data : JsVal
  deriving DecidableEq, Repr

/-- The TICKET_UPDATED branch of the dashboard `onMessage` switch:
`prev.map((ticket) => ticket.id === (message.data as Ticket).id ? message.data : ticket)`.
Each callback invocation reads `ticket.id` and then `message.data.id`; either
read throws on `undefined`. -/
def mapUpd (d : JsVal) : List JsVal → Except Unit (List JsVal)
  | [] => .ok []
  | t :: ts =>
      match t.idOf with
      | .error e => .error e
      | .ok tid =>
          match d.idOf with
          | .error e => .error e
          | .ok did =>
              match mapUpd d ts with
              | .error e => .error e
              | .ok rest => .ok ((if tid = did then d else t) :: rest)

/-- The TICKET_DELETED branch of the dashboard `onMessage` switch:
`prev.filter((ticket) => ticket.id !== (message.data as {id:string}).id)`. -/
def filterDel (d : JsVal) : List JsVal → Except Unit (List JsVal)
  | [] => .ok []
  | t :: ts =>
      match t.idOf with
      | .error e => .error e
      | .ok tid =>
          match d.idOf with
          | .error e => .error e
          | .ok did =>
              match filterDel d ts with
              | .error e => .error e
              | .ok rest => .ok (if tid ≠ did then t :: rest else rest)

/-- The whole `onMessage` switch of the dashboard page (src/unnamed/part_000,
lines 33-58).  TICKET_CREATED unconditionally prepends `message.data`;
TICKET_UPDATED maps; TICKET_DELETED filters; any other tag falls through the
switch and leaves the collection untouched. -/
def applyMessage (tickets : List JsVal) (m : WSMessage) : Except Unit (List JsVal) :=
  if m.msgType = "TICKET_CREATED" then
    .ok (m.data :: tickets)
  else if m.msgType = "TICKET_UPDATED" then
    mapUpd m.data tickets
  else if m.msgType = "TICKET_DELETED" then
    filterDel m.data tickets
  else
    .ok tickets

/-- `ws.onmessage` in src/hooks/useWebSocket.ts (lines 43-50): the inbound
frame is `JSON.parse`d inside a try/catch, and on success forwarded to the
consumer callback *inside the same try block*.  `none` models a frame that is
not valid JSON (parse throws: logged, dropped).  The Bool records whether the
consumer `onMessage` callback was invoked.  A consumer exception is caught by
the surrounding catch, leaving the collection as it was. -/
def handleFrame (tickets : List JsVal) : Option WSMessage → List JsVal × Bool
  | none => (tickets, false)
  | some m =>
      match applyMessage tickets m with
      | .ok ts => (ts, true)
      | .error _ => (tickets, true)

/-- The collection after one inbound frame. -/
def applyFrame (tickets : List JsVal) (m : Option WSMessage) : List JsVal :=
  (handleFrame tickets m).1

/-- The collection after a sequence of inbound frames, applied in delivery
order. -/
def applyFrames (tickets : List JsVal) (ms : List (Option WSMessage)) : List JsVal :=
  ms.foldl applyFrame tickets

/-- No two records in the collection carry the same present identifier. -/
def noDupIds (l : List JsVal) : Prop :=
  (l.filterMap keyOf).Nodup

instance (l : List JsVal) : Decidable (noDupIds l) := by
  unfold noDupIds; infer_instance

/-!
### The connection manager (src/hooks/useWebSocket.ts)

The hook is embedded as an explicit state machine.  The state mirrors the
hook's React state and refs; the events are the externally triggered handler
invocations.  Socket objects are identified by a running counter
(`socketsCreated`): `connect` creates socket number `socketsCreated` and
stores it in `wsRef`.  `closeCalls` counts invocations of `ws.close()` by the
code itself, so that "the previous channel is never closed" is expressible.

`WS_URL` is assumed configured (otherwise `connect` only logs).  Event
delivery (which handler fires when) is chosen by the environment: in
particular a `closeEvt` may be delivered after `disconnect()`, because
`disconnect` calls `ws.close()` without detaching the `onclose` handler, and
the browser fires the close event on the closed socket with that handler
still attached.

Reconnect timers.  `ws.onclose` runs
`reconnectTimeoutRef.current = setTimeout(...)`: it OVERWRITES the ref
without cancelling a timeout already stored there, so a previously scheduled
timeout is orphaned — still live, no handle to it — and will fire its
callback (`setReconnectAttempts(prev => prev + 1); connect()`, with no budget
check at fire time).  `disconnect()` runs
`clearTimeout(reconnectTimeoutRef.current)`, which cancels ONLY the
last-stored timeout.  The state therefore keeps `pendingTimers`, the number
of scheduled, unfired, uncancelled timeouts, together with `refValid`,
whether `reconnectTimeoutRef.current` still names a pending timeout (the
most recently scheduled one).  All timeouts share the same
`reconnectInterval` delay, so they fire in scheduling order: `timerFire`
fires the oldest pending timeout, and the ref-stored one — the newest — fires
last.  More than one timeout can be pending because two `onclose` handlers
can run within one delay window: sockets multiply through the unguarded
`connect` (see C3), and each socket's close event schedules independently.
-/

/-- React state and refs of `useWebSocket`. -/
structure ConnState where
  /-- `const [isConnected, setIsConnected] = useState(false)` -/
  isConnected : Bool
  /-- `const [reconnectAttempts, setReconnectAttempts] = useState(0)` -/
  reconnectAttempts : Nat
  /-- `const wsRef = useRef<WebSocket | null>(null)`, as the id of the held socket -/
  wsRef : Option Nat
  /-- the number of scheduled, unfired, uncancelled reconnect timeouts -/
  pendingTimers : Nat
  /-- whether `reconnectTimeoutRef.current` names a still-pending timeout
  (always the most recently scheduled one) -/
  refValid : Bool
  /-- how many `new WebSocket(WS_URL)` constructions have happened -/
  socketsCreated : Nat
  /-- how many times the code has called `ws.close()` -/
  closeCalls : Nat
  deriving DecidableEq, Repr

/-- The hook's initial state. -/
def initConn : ConnState :=
  { isConnected := false, reconnectAttempts := 0, wsRef := none,
    pendingTimers := 0, refValid := false, socketsCreated := 0, closeCalls := 0 }

/-- Externally triggered events: the consumer operations and the
browser-delivered socket/timer callbacks. -/
inductive Ev where
  /-- a call to `connect()` (explicit, or from the mount effect) -/
  | connectCall
  /-- the `ws.onopen` handler fires -/
  | openEvt
  /-- the `ws.onclose` handler fires (abrupt close, server close, or the
  close event following the code's own `ws.close()`) -/
  | closeEvt
  /-- the scheduled reconnect `setTimeout` callback fires -/
  | timerFire
  /-- a call to `disconnect()` -/
  | disconnectCall
  /-- the `ws.onmessage` handler fires with a frame -/
  | msgEvt (frame : Option WSMessage)
  deriving DecidableEq, Repr

/-- One handler invocation, transcribed from src/hooks/useWebSocket.ts.
`maxR` is `maxReconnectAttempts` (default 5). -/
def step (maxR : Nat) (s : ConnState) : Ev → ConnState
  | .connectCall =>
      -- connect() (lines 29-88): `const ws = new WebSocket(WS_URL); ...;
      -- wsRef.current = ws`.  There is no already-connected guard.
      { s with wsRef := some s.socketsCreated,
               socketsCreated := s.socketsCreated + 1 }
  | .openEvt =>
      -- ws.onopen: setIsConnected(true); setReconnectAttempts(0)
      { s with isConnected := true, reconnectAttempts := 0 }
  | .closeEvt =>
      -- ws.onclose: setIsConnected(false); if attempts < max,
      -- `reconnectTimeoutRef.current = setTimeout(...)` — one more pending
      -- timeout, the ref overwritten onto it (a previously stored pending
      -- timeout is orphaned, NOT cancelled); else only log "Max
      -- reconnection attempts reached"
      if s.reconnectAttempts < maxR then
        { s with isConnected := false,
                 pendingTimers := s.pendingTimers + 1,
                 refValid := true }
      else
        { s with isConnected := false }
  | .timerFire =>
      -- the oldest pending setTimeout callback fires:
      -- setReconnectAttempts(prev => prev + 1); connect().  There is no
      -- budget check at fire time.  The ref-stored timeout is the newest,
      -- so it is the one firing exactly when it was the only one pending.
      -- A fire with nothing pending is a no-op (everything was cancelled).
      if 0 < s.pendingTimers then
        { s with pendingTimers := s.pendingTimers - 1,
                 refValid := s.refValid && decide (1 < s.pendingTimers),
                 reconnectAttempts := s.reconnectAttempts + 1,
                 wsRef := some s.socketsCreated,
                 socketsCreated := s.socketsCreated + 1 }
      else s
  | .disconnectCall =>
      -- disconnect() (lines 90-99): clearTimeout(reconnectTimeoutRef.current)
      -- cancels only the last-stored timeout, when it is still pending;
      -- if (wsRef.current) { wsRef.current.close(); wsRef.current = null };
      -- setIsConnected(false)
      { s with pendingTimers := s.pendingTimers - (if s.refValid then 1 else 0),
               refValid := false,
               closeCalls := s.closeCalls + (if s.wsRef.isSome then 1 else 0),
               wsRef := none,
               isConnected := false }
  | .msgEvt _ =>
      -- ws.onmessage only parses and forwards; it touches no connection state
      s

/-- Run a sequence of events. -/
def runEvents (maxR : Nat) (s : ConnState) (es : List Ev) : ConnState :=
  es.foldl (step maxR) s

/-- The number of automatic reconnect attempts actually executed along a
trace: timer firings that find a pending timeout and hence call `connect`. -/
def countAuto (maxR : Nat) (s : ConnState) : List Ev → Nat
  | [] => 0
  | e :: es =>
      (if e = .timerFire ∧ 0 < s.pendingTimers then 1 else 0) +
        countAuto maxR (step maxR s e) es

/-- State invariant for serialized operation: at most one reconnect timeout
is pending, and it was scheduled while the attempt counter was below the
budget. -/
def timerInv (maxR : Nat) (s : ConnState) : Prop :=
  s.pendingTimers ≤ 1 ∧ (s.pendingTimers = 1 → s.reconnectAttempts < maxR)

instance (maxR : Nat) (s : ConnState) : Decidable (timerInv maxR s) := by
  unfold timerInv; infer_instance

/-- The trace never delivers a close event while a reconnect timeout is
already pending — the serialized (single-socket, close-then-retry)
discipline.  Outside it, `onclose` stacks timeouts and orphans ref handles,
and the reconnect budget is NOT respected. -/
def serializedCloses (maxR : Nat) : ConnState → List Ev → Bool
  | _, [] => true
  | s, e :: es =>
      (if e = Ev.closeEvt then s.pendingTimers == 0 else true) &&
        serializedCloses maxR (step maxR s e) es

/-- Whether a value is a proper ticket object (a Record of the spec), as
opposed to `undefined`. -/
def isObj : JsVal → Bool
  | .undef => false
  | .obj _ => true

/-- A frame is creation-safe for a given collection when, if it is a
TICKET_CREATED envelope whose payload carries a present identifier, that
identifier does not already occur in the collection. -/
def freshFor (ts : List JsVal) : Option WSMessage → Bool
  | none => true
  | some m =>
      if m.msgType = "TICKET_CREATED" then
        match keyOf m.data with
        | none => true
        | some s => decide (s ∉ ts.filterMap keyOf)
      else true

/-- Every TICKET_CREATED envelope in the frame sequence carries an identifier
that is fresh for the collection at the moment it is applied. -/
def safeCreates : List JsVal → List (Option WSMessage) → Bool
  | _, [] => true
  | ts, m :: ms => freshFor ts m && safeCreates (applyFrame ts m) ms

/-!
### Concrete example values used by counterexamples and witnesses
-/

/-- A well-formed ticket with identifier "1". -/
def tkA : JTicket :=
  ⟨some "1", some "A", some "d", some "open", some "low", some "t0", some "t0", none⟩

/-- A second well-formed ticket also carrying identifier "1" (an updated
version of `tkA`). -/
def tkA2 : JTicket :=
  ⟨some "1", some "A2", some "d", some "in-progress", some "high", some "t0", some "t1", none⟩

/-- A well-formed ticket with identifier "2". -/
def tkB : JTicket :=
  ⟨some "2", some "B", some "d", some "open", some "low", some "t0", some "t0", none⟩

/-- A ticket whose status and priority are outside the closed enumerations. -/
def tkBad : JTicket :=
  ⟨some "3", some "C", some "d", some "bogus", some "wat", some "t0", some "t0", none⟩

/-- Connect, open successfully, then suffer five abrupt closes, each followed
by the scheduled reconnect firing; a sixth close arrives with the budget at 5
exhausted. -/
def exhaustTrace : List Ev :=
  [.connectCall, .openEvt,
   .closeEvt, .timerFire, .closeEvt, .timerFire, .closeEvt, .timerFire,
   .closeEvt, .timerFire, .closeEvt, .timerFire, .closeEvt]

/-- After exhaustion: explicit `disconnect()`, explicit `connect()`, then the
new socket closes abruptly before opening; a timer slot follows. -/
def resumeTrace : List Ev :=
  [.disconnectCall, .connectCall, .closeEvt, .timerFire]

/-- Six unguarded `connect()` calls against an unreachable server: all six
sockets' close events fire while the attempt counter is still 0, so all six
schedule a timeout (orphaning the previous ref handle each time), and all
six timeouts fire — six automatic reconnect attempts, none ever opened. -/
def stackTrace : List Ev :=
  [.connectCall, .connectCall, .connectCall, .connectCall, .connectCall,
   .connectCall,
   .closeEvt, .closeEvt, .closeEvt, .closeEvt, .closeEvt, .closeEvt,
   .timerFire, .timerFire, .timerFire, .timerFire, .timerFire, .timerFire]

/-- Two unguarded `connect()` calls, both sockets close (stacking two
timeouts, the first orphaned), then explicit `disconnect()` — which cancels
only the ref-stored second timeout — and the surviving orphaned timeout
fires. -/
def orphanTrace : List Ev :=
  [.connectCall, .connectCall, .closeEvt, .closeEvt, .disconnectCall,
   .timerFire]

/-- The state after two unguarded `connect()` calls and both sockets'
close events: two timeouts pending, the ref naming the second, attempt
counter still 0. -/
def stackedState : ConnState :=
  runEvents 5 initConn [.connectCall, .connectCall, .closeEvt, .closeEvt]

/-!
### Helper lemmas
-/

theorem mapUpd_ok_length {d : JsVal} :
    ∀ {ts l : List JsVal}, mapUpd d ts = .ok l → l.length = ts.length := by
  intro ts
  induction ts with
  | nil => intro l h; simp [mapUpd] at h; simp [← h]
  | cons t ts ih =>
    intro l h
    cases t with
    | undef => simp [mapUpd, JsVal.idOf] at h
    | obj u =>
      cases d with
      | undef => simp [mapUpd, JsVal.idOf] at h
      | obj w =>
        simp only [mapUpd, JsVal.idOf] at h
        cases hrec : mapUpd (JsVal.obj w) ts with
        | error e => rw [hrec] at h; exact absurd h (by simp)
        | ok rest =>
          rw [hrec] at h
          simp only [Except.ok.injEq] at h
          subst h
          simp [ih hrec]

theorem mapUpd_ok_keys {d : JsVal} :
    ∀ {ts l : List JsVal}, mapUpd d ts = .ok l → l.map keyOf = ts.map keyOf := by
  intro ts
  induction ts with
  | nil => intro l h; simp [mapUpd] at h; simp [← h]
  | cons t ts ih =>
    intro l h
    cases t with
    | undef => simp [mapUpd, JsVal.idOf] at h
    | obj u =>
      cases d with
      | undef => simp [mapUpd, JsVal.idOf] at h
      | obj w =>
        simp only [mapUpd, JsVal.idOf] at h
        cases hrec : mapUpd (JsVal.obj w) ts with
        | error e => rw [hrec] at h; exact absurd h (by simp)
        | ok rest =>
          rw [hrec] at h
          simp only [Except.ok.injEq] at h
          subst h
          by_cases hid : u.id = w.id
          · simp [keyOf, hid, ih hrec]
          · simp [keyOf, hid, ih hrec]

theorem filterDel_ok_sublist {d : JsVal} :
    ∀ {ts l : List JsVal}, filterDel d ts = .ok l → l.Sublist ts := by
  intro ts
  induction ts with
  | nil => intro l h; simp [filterDel] at h; simp [← h]
  | cons t ts ih =>
    intro l h
    cases t with
    | undef => simp [filterDel, JsVal.idOf] at h
    | obj u =>
      cases d with
      | undef => simp [filterDel, JsVal.idOf] at h
      | obj w =>
        simp only [filterDel, JsVal.idOf] at h
        cases hrec : filterDel (JsVal.obj w) ts with
        | error e => rw [hrec] at h; exact absurd h (by simp)
        | ok rest =>
          rw [hrec] at h
          simp only [Except.ok.injEq] at h
          subst h
          by_cases hid : u.id = w.id
          · simp only [hid, ne_eq, not_true_eq_false, if_false]
            exact (ih hrec).cons _
          · simp only [ne_eq, hid, not_false_eq_true, if_true]
            exact (ih hrec).cons₂ _

theorem mapUpd_allObj {w : JTicket} :
    ∀ {ts : List JsVal}, (∀ v ∈ ts, isObj v = true) →
      mapUpd (.obj w) ts =
        .ok (ts.map fun v => if keyOf v = w.id then .obj w else v) := by
  intro ts
  induction ts with
  | nil => intro _; simp [mapUpd]
  | cons t ts ih =>
    intro hobj
    cases t with
    | undef =>
      have h0 : isObj JsVal.undef = true := hobj JsVal.undef (by simp)
      simp [isObj] at h0
    | obj u =>
      have hrec := ih (fun v hv => hobj v (by simp [hv]))
      simp [mapUpd, JsVal.idOf, hrec, keyOf]

theorem mapUpd_noMatch {w : JTicket} :
    ∀ {ts : List JsVal}, (∀ v ∈ ts, keyOf v ≠ w.id) →
      mapUpd (.obj w) ts = .ok ts ∨ mapUpd (.obj w) ts = .error () := by
  intro ts
  induction ts with
  | nil => intro _; left; simp [mapUpd]
  | cons t ts ih =>
    intro hne
    cases t with
    | undef => right; simp [mapUpd, JsVal.idOf]
    | obj u =>
      have hu : u.id ≠ w.id := by
        have := hne (JsVal.obj u) (by simp)
        simpa [keyOf] using this
      rcases ih (fun v hv => hne v (by simp [hv])) with hrec | hrec
      · left; simp [mapUpd, JsVal.idOf, hrec, hu]
      · right; simp [mapUpd, JsVal.idOf, hrec]

theorem filterMap_keyOf_congr {l ts : List JsVal}
    (h : l.map keyOf = ts.map keyOf) :
    l.filterMap keyOf = ts.filterMap keyOf := by
  have h1 : (l.map keyOf).filterMap id = (ts.map keyOf).filterMap id := by rw [h]
  simpa [List.filterMap_map, Function.comp] using h1

theorem noDup_applyFrame {ts : List JsVal} {m : Option WSMessage}
    (h : noDupIds ts) (hf : freshFor ts m = true) :
    noDupIds (applyFrame ts m) := by
  cases m with
  | none => exact h
  | some msg =>
    by_cases hc : msg.msgType = "TICKET_CREATED"
    · unfold applyFrame handleFrame
      simp only [applyMessage, hc, if_true, if_pos]
      unfold noDupIds at h ⊢
      cases hk : keyOf msg.data with
      | none => simpa [List.filterMap_cons, hk] using h
      | some s =>
        have hs : s ∉ ts.filterMap keyOf := by
          simp only [freshFor, hc, if_true, hk, if_pos] at hf
          exact of_decide_eq_true hf
        simp only [List.filterMap_cons, hk]
        exact List.nodup_cons.mpr ⟨hs, h⟩
    · by_cases hu : msg.msgType = "TICKET_UPDATED"
      · unfold applyFrame handleFrame
        simp only [applyMessage, hc, hu, if_false, if_true, ite_true, ite_false]
        cases hmu : mapUpd msg.data ts with
        | error e => simpa using h
        | ok l =>
          unfold noDupIds at h ⊢
          simpa [filterMap_keyOf_congr (mapUpd_ok_keys hmu)] using h
      · by_cases hd : msg.msgType = "TICKET_DELETED"
        · unfold applyFrame handleFrame
          simp only [applyMessage, hc, hu, hd, if_false, if_true, ite_true, ite_false]
          cases hfd : filterDel msg.data ts with
          | error e => simpa using h
          | ok l =>
            unfold noDupIds at h ⊢
            exact h.sublist ((filterDel_ok_sublist hfd).filterMap keyOf)
        · unfold applyFrame handleFrame
          simp only [applyMessage, hc, hu, hd, if_false, ite_false]
          exact h

theorem timerInv_step {maxR : Nat} {s : ConnState} (h : timerInv maxR s) (e : Ev)
    (hcl : e = Ev.closeEvt → s.pendingTimers = 0) :
    timerInv maxR (step maxR s e) := by
  obtain ⟨h1, h2⟩ := h
  cases e with
  | connectCall => exact ⟨h1, h2⟩
  | openEvt =>
    constructor
    · exact h1
    · intro hp
      have := h2 hp
      simp only [step]
      omega
  | closeEvt =>
    have h0 : s.pendingTimers = 0 := hcl rfl
    by_cases hlt : s.reconnectAttempts < maxR
    · constructor
      · simp [step, hlt, h0]
      · intro _
        simp only [step, if_pos hlt]
        exact hlt
    · constructor
      · simp only [step, if_neg hlt]
        omega
      · intro hp
        simp only [step, if_neg hlt] at hp
        omega
  | timerFire =>
    by_cases hp : 0 < s.pendingTimers
    · constructor
      · simp only [step, if_pos hp]
        omega
      · intro hone
        simp only [step, if_pos hp] at hone ⊢
        omega
    · constructor
      · simp only [step, if_neg hp]
        exact h1
      · intro hone
        simp only [step, if_neg hp] at hone ⊢
        exact h2 hone
  | disconnectCall =>
    cases hrv : s.refValid with
    | false =>
      constructor
      · simp [step, hrv]
        omega
      · intro hone
        simp only [step, hrv] at hone ⊢
        simp at hone
        exact h2 hone
    | true =>
      constructor
      · simp only [step, hrv]
        omega
      · intro hone
        simp only [step, hrv] at hone
        simp at hone
        omega
  | msgEvt f => exact ⟨h1, h2⟩

theorem countAuto_le {maxR : Nat} :
    ∀ {es : List Ev} {s : ConnState}, timerInv maxR s → Ev.openEvt ∉ es →
      serializedCloses maxR s es = true →
      countAuto maxR s es ≤ maxR - s.reconnectAttempts := by
  intro es
  induction es with
  | nil => intro s _ _ _; simp [countAuto]
  | cons e es ih =>
    intro s hinv hno hser
    have hne : e ≠ Ev.openEvt := fun hx => hno (by simp [hx])
    have hno' : Ev.openEvt ∉ es := fun hx => hno (by simp [hx])
    rw [serializedCloses, Bool.and_eq_true] at hser
    have hcl : e = Ev.closeEvt → s.pendingTimers = 0 := by
      intro he
      have hb := hser.1
      rw [if_pos he] at hb
      exact eq_of_beq hb
    have hinv' := timerInv_step hinv e hcl
    have htail := ih hinv' hno' hser.2
    unfold countAuto
    cases e with
    | openEvt => exact absurd rfl hne
    | timerFire =>
      by_cases hp : 0 < s.pendingTimers
      · have hone : s.pendingTimers = 1 := by
          have := hinv.1
          omega
        have ha : s.reconnectAttempts < maxR := hinv.2 hone
        have hstep : (step maxR s Ev.timerFire).reconnectAttempts
            = s.reconnectAttempts + 1 := by simp [step, hp]
        rw [hstep] at htail
        rw [if_pos ⟨rfl, hp⟩]
        omega
      · have hstep : step maxR s Ev.timerFire = s := by simp [step, hp]
        rw [hstep] at htail
        rw [if_neg (fun hand => hp hand.2), hstep]
        omega
    | closeEvt =>
      have hstep : (step maxR s Ev.closeEvt).reconnectAttempts
          = s.reconnectAttempts := by
        by_cases hlt : s.reconnectAttempts < maxR <;> simp [step, hlt]
      rw [hstep] at htail
      rw [if_neg (by simp)]
      omega
    | connectCall =>
      have hstep : (step maxR s Ev.connectCall).reconnectAttempts
          = s.reconnectAttempts := by simp [step]
      rw [hstep] at htail
      rw [if_neg (by simp)]
      omega
    | disconnectCall =>
      have hstep : (step maxR s Ev.disconnectCall).reconnectAttempts
          = s.reconnectAttempts := by simp [step]
      rw [hstep] at htail
      rw [if_neg (by simp)]
      omega
    | msgEvt f =>
      have hstep : (step maxR s (Ev.msgEvt f)).reconnectAttempts
          = s.reconnectAttempts := by simp [step]
      rw [hstep] at htail
      rw [if_neg (by simp)]
      omega

/-!
### Claim theorems
-/

/-- C1, counterexample: starting from the duplicate-free collection
`[tkA]` (identifier "1"), applying a TICKET_CREATED envelope whose record
also carries identifier "1" yields a collection holding two records with
identifier "1" — the reconciler prepends unconditionally, so the claimed
invariant fails. -/
theorem C1_dup_created_cex :
    noDupIds [JsVal.obj tkA] ∧
    applyFrame [JsVal.obj tkA] (some ⟨"TICKET_CREATED", JsVal.obj tkA2⟩)
      = [JsVal.obj tkA2, JsVal.obj tkA] ∧
    ¬ noDupIds (applyFrame [JsVal.obj tkA]
        (some ⟨"TICKET_CREATED", JsVal.obj tkA2⟩)) := by
  refine ⟨by decide, by decide, by decide⟩

/-- C1, amended: the Local Collection stays free of duplicate identifiers
under every sequence of inbound frames in which each TICKET_CREATED envelope
carries an identifier not already present when it is applied; TICKET_UPDATED,
TICKET_DELETED, unknown-tag and unparseable frames never introduce a
duplicate. -/
theorem C1_noDupIds_preserved (ts : List JsVal) (ms : List (Option WSMessage))
    (h1 : noDupIds ts) (h2 : safeCreates ts ms = true) :
    noDupIds (applyFrames ts ms) := by
  induction ms generalizing ts with
  | nil => simpa [applyFrames] using h1
  | cons m ms ih =>
    unfold safeCreates at h2
    rw [Bool.and_eq_true] at h2
    have hstep := noDup_applyFrame h1 h2.1
    simpa [applyFrames] using ih _ hstep h2.2

/-- C1, witness: a concrete create/update/delete sequence with fresh create
identifiers keeps the collection duplicate-free. -/
theorem C1_noDupIds_preserved_witness :
    noDupIds (applyFrames [JsVal.obj tkB]
      [some ⟨"TICKET_CREATED", JsVal.obj tkA⟩,
       some ⟨"TICKET_UPDATED", JsVal.obj tkA2⟩,
       some ⟨"TICKET_DELETED", JsVal.obj tkB⟩]) :=
  C1_noDupIds_preserved [JsVal.obj tkB]
    [some ⟨"TICKET_CREATED", JsVal.obj tkA⟩,
     some ⟨"TICKET_UPDATED", JsVal.obj tkA2⟩,
     some ⟨"TICKET_DELETED", JsVal.obj tkB⟩]
    (by decide) (by decide)

/-- C2, counterexample: the budget is not respected at all once timeouts
stack — six unguarded `connect()` calls whose six sockets all close while
the counter is 0 schedule six timeouts (each `onclose` overwrites the ref,
orphaning but not cancelling the previous timeout), and all six fire: six
automatic reconnect attempts execute with budget 5 and no successful open
anywhere in the trace.  Moreover after exhaustion along the serialized
trace, an explicit `disconnect()` followed by an explicit `connect()` does
NOT reset the attempt counter (it stays 5 — only a successful open resets
it), so the fresh socket's abrupt close schedules nothing and zero fresh
automatic attempts execute — not the claimed 5. -/
theorem C2_budget_exceeded_cex :
    Ev.openEvt ∉ stackTrace ∧
    countAuto 5 initConn stackTrace = 6 ∧
    (runEvents 5 initConn stackTrace).reconnectAttempts = 6 ∧
    (runEvents 5 initConn (exhaustTrace ++ resumeTrace)).reconnectAttempts = 5 ∧
    (runEvents 5 initConn (exhaustTrace ++ resumeTrace)).pendingTimers = 0 ∧
    countAuto 5 (runEvents 5 initConn exhaustTrace) resumeTrace = 0 := by
  refine ⟨by decide, by decide, by decide, by decide, by decide, by decide⟩

/-- C2, amended: the attempt counter is reset to zero by a successful open,
and `disconnect()` followed by `connect()` leaves it unchanged — it is reset
only when the new connection actually opens.  The at-most-`maxR` bound on
executed automatic reconnect attempts holds only for serialized traces —
no close event delivered while a reconnect timeout is already pending, and
no successful open; outside that discipline `onclose` stacks timeouts whose
orphaned handles are never cancelled, and the program exceeds
`maxReconnectAttempts` automatic attempts. -/
theorem C2_reconnect_budget (maxR : Nat) (s : ConnState) (es : List Ev)
    (hinv : timerInv maxR s) (hno : Ev.openEvt ∉ es)
    (hser : serializedCloses maxR s es = true) :
    countAuto maxR s es ≤ maxR - s.reconnectAttempts ∧
    (step maxR s Ev.openEvt).reconnectAttempts = 0 ∧
    (step maxR (step maxR s Ev.disconnectCall) Ev.connectCall).reconnectAttempts
      = s.reconnectAttempts :=
  ⟨countAuto_le hinv hno hser, rfl, rfl⟩

/-- C2, witness: with budget 1 from the initial state, a serialized trace of
a close, a timer fire and another close executes exactly one automatic
attempt. -/
theorem C2_reconnect_budget_witness :
    countAuto 1 initConn [Ev.closeEvt, Ev.timerFire, Ev.closeEvt]
      ≤ 1 - initConn.reconnectAttempts ∧
    (step 1 initConn Ev.openEvt).reconnectAttempts = 0 ∧
    (step 1 (step 1 initConn Ev.disconnectCall) Ev.connectCall).reconnectAttempts
      = initConn.reconnectAttempts :=
  C2_reconnect_budget 1 initConn [Ev.closeEvt, Ev.timerFire, Ev.closeEvt]
    (by decide) (by decide) (by decide)

/-- C3, counterexample: with the manager connected (socket 0 open,
`isConnected = true`), a further `connect()` call is not a no-op: it
constructs a second WebSocket (socket 1) and replaces the stored channel
handle — `connect` has no already-connected guard. -/
theorem C3_connect_not_idempotent_cex :
    (runEvents 5 initConn [Ev.connectCall, Ev.openEvt]).isConnected = true ∧
    (runEvents 5 initConn [Ev.connectCall, Ev.openEvt]).wsRef = some 0 ∧
    (runEvents 5 initConn [Ev.connectCall, Ev.openEvt, Ev.connectCall]).wsRef
      = some 1 ∧
    (runEvents 5 initConn
      [Ev.connectCall, Ev.openEvt, Ev.connectCall]).socketsCreated = 2 := by
  refine ⟨by decide, by decide, by decide, by decide⟩

/-- C3, amended: `connect()` is unguarded — from any state already holding a
channel handle it constructs one more socket, replaces the stored handle with
the new socket, never calls `close()` on the old channel, and leaves the
connection flag unchanged. -/
theorem C3_connect_unguarded (maxR : Nat) (s : ConnState) (i : Nat)
    (h : s.wsRef = some i) (hlt : i < s.socketsCreated) :
    (step maxR s Ev.connectCall).socketsCreated = s.socketsCreated + 1 ∧
    (step maxR s Ev.connectCall).wsRef ≠ s.wsRef ∧
    (step maxR s Ev.connectCall).closeCalls = s.closeCalls ∧
    (step maxR s Ev.connectCall).isConnected = s.isConnected := by
  refine ⟨rfl, ?_, rfl, rfl⟩
  simp only [step, h, ne_eq, Option.some.injEq]
  omega

/-- C3, witness: instantiated at the connected state reached by a connect
followed by a successful open. -/
theorem C3_connect_unguarded_witness :
    (step 5 (runEvents 5 initConn [Ev.connectCall, Ev.openEvt])
        Ev.connectCall).socketsCreated
      = (runEvents 5 initConn [Ev.connectCall, Ev.openEvt]).socketsCreated + 1 ∧
    (step 5 (runEvents 5 initConn [Ev.connectCall, Ev.openEvt])
        Ev.connectCall).wsRef
      ≠ (runEvents 5 initConn [Ev.connectCall, Ev.openEvt]).wsRef ∧
    (step 5 (runEvents 5 initConn [Ev.connectCall, Ev.openEvt])
        Ev.connectCall).closeCalls
      = (runEvents 5 initConn [Ev.connectCall, Ev.openEvt]).closeCalls ∧
    (step 5 (runEvents 5 initConn [Ev.connectCall, Ev.openEvt])
        Ev.connectCall).isConnected
      = (runEvents 5 initConn [Ev.connectCall, Ev.openEvt]).isConnected :=
  C3_connect_unguarded 5 (runEvents 5 initConn [Ev.connectCall, Ev.openEvt]) 0
    (by decide) (by decide)

/-- C4, counterexample: a reconnect timeout orphaned by an `onclose` ref
overwrite survives `disconnect()` — `clearTimeout` reaches only the
last-stored handle — and then fires, executing a stale automatic reconnect
(counter incremented, a new socket constructed) with no further close event;
and separately, because the close handler stays attached to the explicitly
closed socket, the close event delivered after a plain `disconnect()`
schedules a fresh automatic reconnect.  Both contradict the claim that after
`disconnect()` no automatic reconnect is ever scheduled or executed. -/
theorem C4_orphan_timer_cex :
    (runEvents 5 initConn [Ev.connectCall, Ev.connectCall, Ev.closeEvt,
        Ev.closeEvt, Ev.disconnectCall]).pendingTimers = 1 ∧
    (runEvents 5 initConn orphanTrace).reconnectAttempts = 1 ∧
    (runEvents 5 initConn orphanTrace).socketsCreated = 3 ∧
    (runEvents 5 initConn [Ev.connectCall, Ev.openEvt, Ev.disconnectCall,
        Ev.closeEvt]).pendingTimers = 1 := by
  refine ⟨by decide, by decide, by decide, by decide⟩

/-- C4, amended: `disconnect()` closes the active channel, transitions to
disconnected, and a second `disconnect()` is a no-op; but it cancels only
the reconnect timeout currently stored in the ref (the most recently
scheduled one): a timeout orphaned by an `onclose` ref overwrite survives
`disconnect()` and still fires, executing a stale automatic reconnect —
incrementing the attempt counter and constructing a new socket — and the
still-attached close handler schedules yet another automatic reconnect on
the closed socket's close event whenever the counter is below the budget. -/
theorem C4_disconnect_behavior (maxR : Nat) (s : ConnState)
    (hlt : s.reconnectAttempts < maxR) (horph : 2 ≤ s.pendingTimers)
    (href : s.refValid = true) :
    (step maxR s Ev.disconnectCall).isConnected = false ∧
    (step maxR s Ev.disconnectCall).wsRef = none ∧
    (step maxR s Ev.disconnectCall).refValid = false ∧
    (step maxR s Ev.disconnectCall).pendingTimers = s.pendingTimers - 1 ∧
    step maxR (step maxR s Ev.disconnectCall) Ev.disconnectCall
      = step maxR s Ev.disconnectCall ∧
    0 < (step maxR s Ev.disconnectCall).pendingTimers ∧
    (step maxR (step maxR s Ev.disconnectCall) Ev.timerFire).reconnectAttempts
      = s.reconnectAttempts + 1 ∧
    (step maxR (step maxR s Ev.disconnectCall) Ev.timerFire).socketsCreated
      = s.socketsCreated + 1 ∧
    (step maxR (step maxR s Ev.disconnectCall) Ev.closeEvt).pendingTimers
      = (step maxR s Ev.disconnectCall).pendingTimers + 1 := by
  have hp : (step maxR s Ev.disconnectCall).pendingTimers
      = s.pendingTimers - 1 := by
    simp [step, href]
  have hpos : 0 < (step maxR s Ev.disconnectCall).pendingTimers := by
    rw [hp]
    omega
  have hfire : ∀ (u : ConnState), 0 < u.pendingTimers →
      (step maxR u Ev.timerFire).reconnectAttempts = u.reconnectAttempts + 1 ∧
      (step maxR u Ev.timerFire).socketsCreated = u.socketsCreated + 1 := by
    intro u hu
    constructor <;> simp [step, hu]
  refine ⟨rfl, rfl, rfl, hp, ?_, hpos, ?_, ?_, ?_⟩
  · simp [step]
  · exact (hfire _ hpos).1
  · exact (hfire _ hpos).2
  · have hatt : (step maxR s Ev.disconnectCall).reconnectAttempts
        = s.reconnectAttempts := rfl
    simp only [step, hatt, if_pos hlt]

/-- C4, witness: two unguarded connects and two closes stack two timeouts
with the ref on the second; `disconnect()` then cancels only that one. -/
theorem C4_disconnect_behavior_witness :
    (step 5 stackedState Ev.disconnectCall).isConnected = false ∧
    (step 5 stackedState Ev.disconnectCall).wsRef = none ∧
    (step 5 stackedState Ev.disconnectCall).refValid = false ∧
    (step 5 stackedState Ev.disconnectCall).pendingTimers
      = stackedState.pendingTimers - 1 ∧
    step 5 (step 5 stackedState Ev.disconnectCall) Ev.disconnectCall
      = step 5 stackedState Ev.disconnectCall ∧
    0 < (step 5 stackedState Ev.disconnectCall).pendingTimers ∧
    (step 5 (step 5 stackedState Ev.disconnectCall)
        Ev.timerFire).reconnectAttempts
      = stackedState.reconnectAttempts + 1 ∧
    (step 5 (step 5 stackedState Ev.disconnectCall) Ev.timerFire).socketsCreated
      = stackedState.socketsCreated + 1 ∧
    (step 5 (step 5 stackedState Ev.disconnectCall) Ev.closeEvt).pendingTimers
      = (step 5 stackedState Ev.disconnectCall).pendingTimers + 1 :=
  C4_disconnect_behavior 5 stackedState (by decide) (by decide) (by decide)

/-- C5, counterexample: a frame that is valid JSON but carries the unknown
tag "BOGUS" IS forwarded to the consumer `onMessage` handler (only
`JSON.parse` failures are caught), and a TICKET_CREATED frame with a missing
`data` field DOES alter the Local Collection — it prepends the undefined
payload. -/
theorem C5_malformed_forwarded_cex :
    (handleFrame [] (some ⟨"BOGUS", JsVal.undef⟩)).2 = true ∧
    applyFrame [] (some ⟨"TICKET_CREATED", JsVal.undef⟩) = [JsVal.undef] := by
  refine ⟨by decide, by decide⟩

/-- C5, amended: only frames that fail JSON parsing are dropped-and-logged
without reaching the consumer; every frame that parses as JSON is forwarded
to `onMessage` regardless of its tag or fields; a frame with an unknown tag
leaves the Local Collection unchanged; and message handling never closes the
channel or changes any connection state. -/
theorem C5_frame_handling (ts : List JsVal) (m bad : WSMessage)
    (h1 : bad.msgType ≠ "TICKET_CREATED")
    (h2 : bad.msgType ≠ "TICKET_UPDATED")
    (h3 : bad.msgType ≠ "TICKET_DELETED") :
    handleFrame ts none = (ts, false) ∧
    (handleFrame ts (some m)).2 = true ∧
    handleFrame ts (some bad) = (ts, true) ∧
    (∀ (maxR : Nat) (s : ConnState) (f : Option WSMessage),
      step maxR s (Ev.msgEvt f) = s) := by
  refine ⟨rfl, ?_, ?_, fun _ _ _ => rfl⟩
  · cases happ : applyMessage ts m with
    | ok l => simp [handleFrame, happ]
    | error e => simp [handleFrame, happ]
  · simp [handleFrame, applyMessage, h1, h2, h3]

/-- C5, witness: the empty collection, an arbitrary parsed frame, and a
frame with the unknown tag "BOGUS". -/
theorem C5_frame_handling_witness :
    handleFrame [] none = ([], false) ∧
    (handleFrame [] (some ⟨"TICKET_UPDATED", JsVal.undef⟩)).2 = true ∧
    handleFrame [] (some ⟨"BOGUS", JsVal.undef⟩) = ([], true) ∧
    (∀ (maxR : Nat) (s : ConnState) (f : Option WSMessage),
      step maxR s (Ev.msgEvt f) = s) :=
  C5_frame_handling [] ⟨"TICKET_UPDATED", JsVal.undef⟩ ⟨"BOGUS", JsVal.undef⟩
    (by decide) (by decide) (by decide)

/-- C6: on a collection of proper Records, a TICKET_CREATED envelope for id
`x` followed immediately by a TICKET_UPDATED envelope for `x` leaves the
record with id `x` at position 0 (exactly where the create prepended it) with
the updated field values, the collection one longer than before, and every
pre-existing record whose id is not `x` unchanged at its shifted position. -/
theorem C6_created_then_updated_position (ts : List JsVal) (t1 t2 : JTicket)
    (x : String) (hobj : ∀ v ∈ ts, isObj v = true)
    (h1 : t1.id = some x) (h2 : t2.id = some x) :
    (applyFrame (applyFrame ts (some ⟨"TICKET_CREATED", JsVal.obj t1⟩))
        (some ⟨"TICKET_UPDATED", JsVal.obj t2⟩)).head? = some (JsVal.obj t2) ∧
    (applyFrame (applyFrame ts (some ⟨"TICKET_CREATED", JsVal.obj t1⟩))
        (some ⟨"TICKET_UPDATED", JsVal.obj t2⟩)).length = ts.length + 1 ∧
    ∀ i (hi : i < ts.length), keyOf ts[i] ≠ some x →
      (applyFrame (applyFrame ts (some ⟨"TICKET_CREATED", JsVal.obj t1⟩))
        (some ⟨"TICKET_UPDATED", JsVal.obj t2⟩))[i + 1]? = some ts[i] := by
  have hcr : applyFrame ts (some ⟨"TICKET_CREATED", JsVal.obj t1⟩)
      = JsVal.obj t1 :: ts := by
    simp [applyFrame, handleFrame, applyMessage]
  have hmap : mapUpd (JsVal.obj t2) (JsVal.obj t1 :: ts)
      = .ok (JsVal.obj t2 ::
          ts.map fun v => if keyOf v = t2.id then JsVal.obj t2 else v) := by
    have hrec := @mapUpd_allObj t2 ts hobj
    simp [mapUpd, JsVal.idOf, hrec, h1, h2]
  have hupd : applyFrame (JsVal.obj t1 :: ts)
        (some ⟨"TICKET_UPDATED", JsVal.obj t2⟩)
      = JsVal.obj t2 ::
          ts.map fun v => if keyOf v = t2.id then JsVal.obj t2 else v := by
    simp [applyFrame, handleFrame, applyMessage, hmap]
  rw [hcr, hupd]
  refine ⟨rfl, by simp, ?_⟩
  intro i hi hk
  have hts : ts[i]? = some ts[i] := List.getElem?_eq_getElem hi
  simp [List.getElem?_map, hts, h2, hk]

/-- C6, witness: collection `[tkB]`, create `tkA` (id "1") then update it to
`tkA2`. -/
theorem C6_created_then_updated_position_witness :
    (applyFrame (applyFrame [JsVal.obj tkB]
        (some ⟨"TICKET_CREATED", JsVal.obj tkA⟩))
        (some ⟨"TICKET_UPDATED", JsVal.obj tkA2⟩)).head? = some (JsVal.obj tkA2) ∧
    (applyFrame (applyFrame [JsVal.obj tkB]
        (some ⟨"TICKET_CREATED", JsVal.obj tkA⟩))
        (some ⟨"TICKET_UPDATED", JsVal.obj tkA2⟩)).length
      = [JsVal.obj tkB].length + 1 ∧
    ∀ i (hi : i < [JsVal.obj tkB].length), keyOf [JsVal.obj tkB][i] ≠ some "1" →
      (applyFrame (applyFrame [JsVal.obj tkB]
        (some ⟨"TICKET_CREATED", JsVal.obj tkA⟩))
        (some ⟨"TICKET_UPDATED", JsVal.obj tkA2⟩))[i + 1]?
        = some [JsVal.obj tkB][i] :=
  C6_created_then_updated_position [JsVal.obj tkB] tkA tkA2 "1"
    (by decide) (by decide) (by decide)

/-- C7, counterexample: applying a TICKET_UPDATED envelope for id "1" to the
empty collection leaves it empty — no record with identifier "1" is added,
so the update is NOT treated as an upsert (the `map` matches nothing). -/
theorem C7_updated_absent_cex :
    applyFrame [] (some ⟨"TICKET_UPDATED", JsVal.obj tkA⟩) = [] ∧
    "1" ∉ (applyFrame [] (some ⟨"TICKET_UPDATED", JsVal.obj tkA⟩)).filterMap
        keyOf := by
  refine ⟨by decide, by decide⟩

/-- C7, amended: a TICKET_UPDATED envelope whose identifier matches no record
in the Local Collection is a silent no-op — the resulting collection is
exactly the original one, and in particular still contains no record with
that identifier. -/
theorem C7_updated_absent_noop (ts : List JsVal) (t : JTicket) (x : String)
    (hid : t.id = some x) (h : ∀ v ∈ ts, keyOf v ≠ some x) :
    applyFrame ts (some ⟨"TICKET_UPDATED", JsVal.obj t⟩) = ts := by
  have hnm := @mapUpd_noMatch t ts
    (fun v hv => by rw [hid]; exact h v hv)
  unfold applyFrame handleFrame
  rcases hnm with hnm | hnm <;> simp [applyMessage, hnm]

/-- C7, witness: updating id "1" in a collection holding only id "2" changes
nothing. -/
theorem C7_updated_absent_noop_witness :
    applyFrame [JsVal.obj tkB] (some ⟨"TICKET_UPDATED", JsVal.obj tkA⟩)
      = [JsVal.obj tkB] :=
  C7_updated_absent_noop [JsVal.obj tkB] tkA "1" (by decide) (by decide)

/-- C8, counterexample: the record `tkBad` carries status "bogus" and
priority "wat", both outside the closed enumerations, yet applying its
TICKET_CREATED envelope admits it into the Local Collection unchanged — no
boundary validation rejects it. -/
theorem C8_invalid_enum_admitted_cex :
    isValidStatus "bogus" = false ∧
    isValidPriority "wat" = false ∧
    applyFrame [] (some ⟨"TICKET_CREATED", JsVal.obj tkBad⟩)
      = [JsVal.obj tkBad] := by
  refine ⟨by decide, by decide, by decide⟩

/-- C8, amended: no runtime validation of status or priority happens at the
boundary — every inbound record, even one whose status or priority lies
outside the closed enumerations, is admitted into the Local Collection with
its values passed through unmodified. -/
theorem C8_no_boundary_validation (ts : List JsVal) (t : JTicket)
    (sv pv : String) (hs : t.status = some sv) (hp : t.priority = some pv)
    (hbad : isValidStatus sv = false ∨ isValidPriority pv = false) :
    applyFrame ts (some ⟨"TICKET_CREATED", JsVal.obj t⟩) = JsVal.obj t :: ts ∧
    JsVal.obj t ∈ applyFrame ts (some ⟨"TICKET_CREATED", JsVal.obj t⟩) := by
  have hres : applyFrame ts (some ⟨"TICKET_CREATED", JsVal.obj t⟩)
      = JsVal.obj t :: ts := by
    simp [applyFrame, handleFrame, applyMessage]
  exact ⟨hres, by rw [hres]; exact List.mem_cons_self _ _⟩

/-- C8, witness: `tkBad` is admitted into the empty collection. -/
theorem C8_no_boundary_validation_witness :
    applyFrame [] (some ⟨"TICKET_CREATED", JsVal.obj tkBad⟩)
      = JsVal.obj tkBad :: [] ∧
    JsVal.obj tkBad ∈ applyFrame [] (some ⟨"TICKET_CREATED", JsVal.obj tkBad⟩) :=
  C8_no_boundary_validation [] tkBad "bogus" "wat" (by decide) (by decide)
    (Or.inl (by decide))

/-- C9: applying a TICKET_UPDATED envelope never changes the number of
records in the Local Collection — the `map` preserves length, and when the
handler throws (missing `data`, or an undefined entry) the collection is left
as it was, so the length is again unchanged. -/
theorem C9_updated_preserves_length (ts : List JsVal) (d : JsVal) :
    (applyFrame ts (some ⟨"TICKET_UPDATED", d⟩)).length = ts.length := by
  have happ : applyMessage ts ⟨"TICKET_UPDATED", d⟩ = mapUpd d ts := by
    simp [applyMessage]
  cases hmu : mapUpd d ts with
  | error e => simp [applyFrame, handleFrame, happ, hmu]
  | ok l => simp [applyFrame, handleFrame, happ, hmu, mapUpd_ok_length hmu]

/-- C10: an exception thrown synchronously by the consumer while handling a
forwarded frame is caught by the try/catch inside `ws.onmessage`: the handler
returns normally with the collection as it was, the frame still counts as
forwarded, and no connection state changes (the channel is not closed).  In
particular a TICKET_UPDATED or TICKET_DELETED frame with a missing `data`
payload throws (reading `.id` of `undefined`) whenever the collection is
non-empty. -/
theorem C10_consumer_exception_contained (ts rest : List JsVal)
    (m : WSMessage) (v : JsVal) (e : Unit)
    (herr : applyMessage ts m = .error e) :
    handleFrame ts (some m) = (ts, true) ∧
    applyMessage (v :: rest) ⟨"TICKET_UPDATED", JsVal.undef⟩ = .error () ∧
    applyMessage (v :: rest) ⟨"TICKET_DELETED", JsVal.undef⟩ = .error () ∧
    (∀ (maxR : Nat) (s : ConnState), step maxR s (Ev.msgEvt (some m)) = s) := by
  refine ⟨?_, ?_, ?_, fun _ _ => rfl⟩
  · simp [handleFrame, herr]
  · have hm : mapUpd JsVal.undef (v :: rest) = .error () := by
      cases v <;> simp [mapUpd, JsVal.idOf]
    simp [applyMessage, hm]
  · have hf : filterDel JsVal.undef (v :: rest) = .error () := by
      cases v <;> simp [filterDel, JsVal.idOf]
    simp [applyMessage, hf]

/-- C10, witness: a TICKET_UPDATED frame with missing `data` on the
one-element collection `[tkA]` throws in the consumer and is contained. -/
theorem C10_consumer_exception_contained_witness :
    handleFrame [JsVal.obj tkA] (some ⟨"TICKET_UPDATED", JsVal.undef⟩)
      = ([JsVal.obj tkA], true) ∧
    applyMessage (JsVal.obj tkA :: []) ⟨"TICKET_UPDATED", JsVal.undef⟩
      = .error () ∧
    applyMessage (JsVal.obj tkA :: []) ⟨"TICKET_DELETED", JsVal.undef⟩
      = .error () ∧
    (∀ (maxR : Nat) (s : ConnState),
      step maxR s (Ev.msgEvt (some ⟨"TICKET_UPDATED", JsVal.undef⟩)) = s) :=
  C10_consumer_exception_contained [JsVal.obj tkA] [] ⟨"TICKET_UPDATED", JsVal.undef⟩
    (JsVal.obj tkA) () rfl

end TicketSync
